import Mathlib

/-! # Frame constraints

A shallow embedding of `frame/constraints.go`: the `Constraints` policy value, its
constructor `NewConstraints` and its five validators, followed by the properties
established about them.

Conventions of the embedding.

* A Go `uint32` is a natural number below `2 ^ 32`; the conversion `uint32(n)` of an
  `int` keeps the low 32 bits and is written `toUint32`.
* A Go `int` is an integer (`Int`).
* A Go `error` result is an `Option Error`: `none` is `nil`, `some e` is one of the six
  package level error values.
* A pointer receiver `c *Constraints` is an `Option Constraints`: `none` is the nil pointer.
* A Go `map[string]bool` is a function `String → Option Bool`: `none` when the key has no
  entry, `some v` when the key is mapped to `v`.
-/

namespace frame

/-! ## Constants -/

/-- Source: `DefaultMaxHeaders uint32 = 64`. -/
def DefaultMaxHeaders : Nat := 64

/-- Source: `DefaultMaxHeaderNameSize uint32 = 256`. -/
def DefaultMaxHeaderNameSize : Nat := 256

/-- Source: `DefaultMaxHeaderValueSize uint32 = 4096`. -/
def DefaultMaxHeaderValueSize : Nat := 4096

/-- Source: `DefaultMaxBodySize uint32 = 1048576`. -/
def DefaultMaxBodySize : Nat := 1048576

/-- Source: `ConstraintsMax uint32 = math.MaxUint32`. -/
def ConstraintsMax : Nat := 4294967295

/-- The six error values declared by the package. -/
inductive Error where
  | ErrTooManyHeaders
  | ErrHeaderNameTooLarge
  | ErrHeaderValueTooLarge
  | ErrBodyTooLarge
  | ErrInvalidContentType
  | ErrMissingContentType
  deriving DecidableEq, Repr

open Error

/-! ## Machine integers -/

/-- The Go conversion `uint32(n)` of an `int`: the value modulo `2 ^ 32`. -/
def toUint32 (n : Int) : Nat := (n % 4294967296).toNat

/-! ## The frame collaborator -/

/-- Modelled from the spec: the header name constant for Content-Type, which the
source uses verbatim as the lookup key (declared outside `constraints.go`). -/
def ContentType : String := "content-type"

/-- Modelled from the spec: the SEND member of the command enumeration
(declared outside `constraints.go`). -/
def SEND : String := "SEND"

/-- Modelled from the spec: the MESSAGE member of the command enumeration
(declared outside `constraints.go`). -/
def MESSAGE : String := "MESSAGE"

/-- Modelled from the spec: the ERROR member of the command enumeration
(declared outside `constraints.go`). -/
def ERROR : String := "ERROR"

/-- Modelled from the spec: the `Header` container of a frame (declared outside
`constraints.go`), an ordered collection of name and value pairs that supports an
entry count and a lookup by name. -/
structure Header where
  entries : List (String × String)

/-- Modelled from the spec: the entry-count query `Header.Len`, a Go `int`. -/
def Header.Len (h : Header) : Int := (h.entries.length : Int)

/-- Modelled from the spec: the query `Header.Contains`, which finds a header by name and
returns its value together with a presence flag; `some v` stands for `(v, true)` and
`none` for an absent header. -/
def Header.Contains (h : Header) (name : String) : Option String :=
  h.entries.lookup name

/-- Modelled from the spec: the `Frame` type (declared outside `constraints.go`), with a
command, a header container and a body byte sequence. -/
structure Frame where
  Command : String
  Header : Header
  Body : List UInt8

/-! ## Constraints -/

/-- Source: `type Constraints struct`. The four limits are `uint32` fields. -/
structure Constraints where
  Enabled : Bool
  MaxHeaders : Nat
  MaxHeaderNameSize : Nat
  MaxHeaderValueSize : Nat
  MaxBodySize : Nat
  EnforceAllowedContentTypes : Bool
  AllowedContentTypes : String → Option Bool

/-- The Go map with no entry (also the nil map): every lookup reports the key absent. -/
def emptyContentTypes : String → Option Bool := fun _ => none

/-- The two-result map index expression `v, e := m[k]` of Go: the value (the zero value
`false` when the key is absent) and the presence flag. -/
def mapIndex (m : String → Option Bool) (k : String) : Bool × Bool :=
  match m k with
  | some v => (v, true)
  | none => (false, false)

/-- Source: `func NewConstraints() *Constraints`. The fields the composite literal leaves
out take their zero values: `Enabled` and `EnforceAllowedContentTypes` are `false` and
`AllowedContentTypes` is the nil map. The returned pointer is never nil. -/
def NewConstraints : Constraints :=
  { Enabled := false
    MaxHeaders := DefaultMaxHeaders
    MaxHeaderNameSize := DefaultMaxHeaderNameSize
    MaxHeaderValueSize := DefaultMaxHeaderValueSize
    MaxBodySize := DefaultMaxBodySize
    EnforceAllowedContentTypes := false
    AllowedContentTypes := emptyContentTypes }

/-- Source: `func (c *Constraints) ValidateMaxHeaders(f *Frame) error`. -/
def ValidateMaxHeaders (c : Option Constraints) (f : Frame) : Option Error :=
  match c with
  | some c =>
    if c.Enabled then
      let hLen := toUint32 f.Header.Len
      if hLen > c.MaxHeaders then some ErrTooManyHeaders else none
    else none
  | none => none

/-- Source: `func (c *Constraints) ValidateHeaderNameLen(nLen int) error`. -/
def ValidateHeaderNameLen (c : Option Constraints) (nLen : Int) : Option Error :=
  match c with
  | some c =>
    if c.Enabled && decide (toUint32 nLen > c.MaxHeaderNameSize) then
      some ErrHeaderNameTooLarge
    else none
  | none => none

/-- Source: `func (c *Constraints) ValidateHeaderValueLen(vLen int) error`. The comparison
is `<=`, as in the source. -/
def ValidateHeaderValueLen (c : Option Constraints) (vLen : Int) : Option Error :=
  match c with
  | some c =>
    if c.Enabled && decide (toUint32 vLen ≤ c.MaxHeaderValueSize) then
      some ErrHeaderValueTooLarge
    else none
  | none => none

/-- Source: `func (c *Constraints) ValidateBodyLen(bLen int) error`. -/
def ValidateBodyLen (c : Option Constraints) (bLen : Int) : Option Error :=
  match c with
  | some c =>
    if c.Enabled && decide (toUint32 bLen > c.MaxBodySize) then
      some ErrBodyTooLarge
    else none
  | none => none

/-- Source: `func (c *Constraints) ValidateContentType(f *Frame) error`. -/
def ValidateContentType (c : Option Constraints) (f : Frame) : Option Error :=
  match c with
  | some c =>
    if c.Enabled && c.EnforceAllowedContentTypes then
      match f.Header.Contains ContentType with
      | some contentType =>
        let (v, e) := mapIndex c.AllowedContentTypes contentType
        if !e || !v then some ErrInvalidContentType else none
      | none =>
        if decide (f.Body.length > 0) &&
            (f.Command == SEND || f.Command == MESSAGE || f.Command == ERROR) then
          some ErrMissingContentType
        else none
    else none
  | none => none

/-! ## Sample values -/

/-- A disabled `Constraints` value whose four limits are all zero. -/
def disabledZero : Constraints :=
  { Enabled := false
    MaxHeaders := 0
    MaxHeaderNameSize := 0
    MaxHeaderValueSize := 0
    MaxBodySize := 0
    EnforceAllowedContentTypes := true
    AllowedContentTypes := emptyContentTypes }

/-- The default limits with the master switch turned on. -/
def enabledDefaults : Constraints := { NewConstraints with Enabled := true }

/-- A SEND frame with two headers, none of them Content-Type, and a one byte body. -/
def sendNoType : Frame :=
  { Command := SEND
    Header := { entries := [("destination", "/queue/a"), ("receipt", "r1")] }
    Body := [104] }

/-- A header container with `2 ^ 32` entries. -/
def hugeHeader : Header := { entries := List.replicate 4294967296 ("a", "b") }

/-- A frame with `2 ^ 32` headers and an empty body. -/
def hugeFrame : Frame := { Command := SEND, Header := hugeHeader, Body := [] }

/-- The allow-list with "text/plain" mapped to true and "application/json" mapped to
false, and no other entry. -/
def exampleContentTypes : String → Option Bool := fun k =>
  if k = "text/plain" then some true
  else if k = "application/json" then some false
  else none

/-- Enabled constraints that enforce the allow-list `exampleContentTypes`. -/
def allowListExample : Constraints :=
  { NewConstraints with
    Enabled := true
    EnforceAllowedContentTypes := true
    AllowedContentTypes := exampleContentTypes }

/-- A frame with the given command and body whose second header is a Content-Type header
with value `t`. -/
def frameWithType (cmd t : String) (body : List UInt8) : Frame :=
  { Command := cmd
    Header := { entries := [("destination", "/queue/a"), (ContentType, t)] }
    Body := body }

/-- Enabled constraints whose header count, header name and body limits are
`ConstraintsMax`; the header value limit keeps its default. -/
def limitsOff : Constraints :=
  { enabledDefaults with
    MaxHeaders := ConstraintsMax
    MaxHeaderNameSize := ConstraintsMax
    MaxBodySize := ConstraintsMax }

/-- Enabled constraints whose header value limit is `ConstraintsMax`; the other limits
keep their defaults. -/
def valueCheckOff : Constraints :=
  { enabledDefaults with MaxHeaderValueSize := ConstraintsMax }

/-- The value of `NewConstraints` with only `Enabled` and `EnforceAllowedContentTypes`
set to true: the allow-list has no entry. -/
def enforcedDefaults : Constraints :=
  { NewConstraints with Enabled := true, EnforceAllowedContentTypes := true }

/-- The constraints `allowListExample` with every numeric limit set to zero. -/
def allowListTight : Constraints :=
  { allowListExample with
    MaxHeaders := 0
    MaxHeaderNameSize := 0
    MaxHeaderValueSize := 0
    MaxBodySize := 0 }

/-- A MESSAGE frame with two headers, one of them Content-Type, and an empty body. -/
def messageTyped : Frame := frameWithType MESSAGE "text/plain" []

/-! ## Auxiliary facts -/

theorem toUint32_of_inRange (n : Int) (h0 : 0 ≤ n) (h1 : n < 4294967296) :
    toUint32 n = n.toNat := by
  unfold toUint32
  rw [Int.emod_eq_of_lt h0 h1]

theorem Header.Len_nonneg (h : Header) : 0 ≤ h.Len := by
  unfold Header.Len
  exact Int.ofNat_nonneg _

theorem hugeFrame_Len : hugeFrame.Header.Len = 4294967296 := by
  show ((List.replicate 4294967296 (("a", "b") : String × String)).length : Int) = 4294967296
  rw [List.length_replicate]
  rfl

theorem frameWithType_Contains (cmd t : String) (body : List UInt8) :
    (frameWithType cmd t body).Header.Contains ContentType = some t := by
  simp [frameWithType, Header.Contains, List.lookup, ContentType]

/-! ## Disabled constraints -/

/-- C1: a `Constraints` value with `Enabled = false` rejects nothing: whatever its limits
and allow-list settings are, each of the five validators returns success on every
input. -/
theorem C1_disabled_never_rejects (c : Constraints) (h : c.Enabled = false) :
    (∀ f : Frame, ValidateMaxHeaders (some c) f = none) ∧
    (∀ f : Frame, ValidateContentType (some c) f = none) ∧
    (∀ n : Int, ValidateHeaderNameLen (some c) n = none) ∧
    (∀ v : Int, ValidateHeaderValueLen (some c) v = none) ∧
    (∀ b : Int, ValidateBodyLen (some c) b = none) := by
  refine ⟨?_, ?_, ?_, ?_, ?_⟩ <;> intro x <;>
    simp [ValidateMaxHeaders, ValidateContentType, ValidateHeaderNameLen,
      ValidateHeaderValueLen, ValidateBodyLen, h]

/-- C1, at the all-zero disabled value: a frame with two headers and a body, and the
lengths 1, 0 and 5000000, are all accepted. -/
theorem C1_disabled_never_rejects_witness :
    disabledZero.Enabled = false ∧
    ValidateMaxHeaders (some disabledZero) sendNoType = none ∧
    ValidateContentType (some disabledZero) sendNoType = none ∧
    ValidateHeaderNameLen (some disabledZero) 1 = none ∧
    ValidateHeaderValueLen (some disabledZero) 0 = none ∧
    ValidateBodyLen (some disabledZero) 5000000 = none :=
  have h := C1_disabled_never_rejects disabledZero rfl
  ⟨rfl, h.1 sendNoType, h.2.1 sendNoType, h.2.2.1 1, h.2.2.2.1 0, h.2.2.2.2 5000000⟩

/-! ## The numeric limits -/

/-- C2 (as amended): with `Enabled = true` and a body length `b` in the `uint32` range
`0 <= b < 2 ^ 32`, `ValidateBodyLen` returns `ErrBodyTooLarge` exactly when
`b > MaxBodySize` and success exactly when `b <= MaxBodySize`; the boundary
`b = MaxBodySize` succeeds. -/
theorem C2_body_len_in_range (c : Constraints) (b : Int) (hE : c.Enabled = true)
    (h0 : 0 ≤ b) (h1 : b < 4294967296) :
    (ValidateBodyLen (some c) b = some ErrBodyTooLarge ↔ b > (c.MaxBodySize : Int)) ∧
    (ValidateBodyLen (some c) b = none ↔ b ≤ (c.MaxBodySize : Int)) ∧
    (b = (c.MaxBodySize : Int) → ValidateBodyLen (some c) b = none) := by
  have hu := toUint32_of_inRange b h0 h1
  simp only [ValidateBodyLen, hE, hu, Bool.true_and]
  by_cases hlt : b.toNat > c.MaxBodySize
  · simp [hlt]; omega
  · simp [hlt]; omega

/-- C2, at the default limit 1048576: the length 1048577 is rejected. -/
theorem C2_body_len_in_range_witness :
    enabledDefaults.Enabled = true ∧ (0 : Int) ≤ 1048577 ∧ (1048577 : Int) < 4294967296 ∧
    ValidateBodyLen (some enabledDefaults) 1048577 = some ErrBodyTooLarge :=
  ⟨rfl, by decide, by decide,
    (C2_body_len_in_range enabledDefaults 1048577 rfl (by decide) (by decide)).1.mpr
      (by decide)⟩

/-- C2 as stated for every Go `int` fails: with the default limit 1048576 the length
`2 ^ 32` exceeds the limit and is accepted, and the length `-1` does not exceed the limit
and is rejected. -/
theorem C2_body_len_counterexample :
    enabledDefaults.Enabled = true ∧
    ((4294967296 : Int) > (enabledDefaults.MaxBodySize : Int) ∧
      ValidateBodyLen (some enabledDefaults) 4294967296 = none) ∧
    (¬ ((-1 : Int) > (enabledDefaults.MaxBodySize : Int)) ∧
      ValidateBodyLen (some enabledDefaults) (-1) = some ErrBodyTooLarge) := by
  decide

/-- C3 (as amended): with `Enabled = true` and a frame whose header count `h` is below
`2 ^ 32`, `ValidateMaxHeaders` returns `ErrTooManyHeaders` exactly when `h > MaxHeaders`
and success exactly when `h <= MaxHeaders`; the boundary `h = MaxHeaders` succeeds. -/
theorem C3_max_headers_in_range (c : Constraints) (f : Frame) (hE : c.Enabled = true)
    (h1 : f.Header.Len < 4294967296) :
    (ValidateMaxHeaders (some c) f = some ErrTooManyHeaders ↔
      f.Header.Len > (c.MaxHeaders : Int)) ∧
    (ValidateMaxHeaders (some c) f = none ↔ f.Header.Len ≤ (c.MaxHeaders : Int)) ∧
    (f.Header.Len = (c.MaxHeaders : Int) → ValidateMaxHeaders (some c) f = none) := by
  have h0 := Header.Len_nonneg f.Header
  have hu := toUint32_of_inRange f.Header.Len h0 h1
  simp only [ValidateMaxHeaders, hE, hu, if_true]
  by_cases hlt : f.Header.Len.toNat > c.MaxHeaders
  · simp [hlt]; omega
  · simp [hlt]; omega

/-- C3, at a frame with two headers: a limit of 1 rejects it. -/
theorem C3_max_headers_in_range_witness :
    ({ enabledDefaults with MaxHeaders := 1 } : Constraints).Enabled = true ∧
    sendNoType.Header.Len < 4294967296 ∧
    ValidateMaxHeaders (some { enabledDefaults with MaxHeaders := 1 }) sendNoType =
      some ErrTooManyHeaders :=
  ⟨rfl, by decide,
    (C3_max_headers_in_range { enabledDefaults with MaxHeaders := 1 } sendNoType rfl
      (by decide)).1.mpr (by decide)⟩

/-- C3 as stated for every frame fails: with the default limit 64, a frame whose header
container reports `2 ^ 32` entries exceeds the limit and is accepted. -/
theorem C3_max_headers_counterexample :
    enabledDefaults.Enabled = true ∧
    hugeFrame.Header.Len > (enabledDefaults.MaxHeaders : Int) ∧
    ValidateMaxHeaders (some enabledDefaults) hugeFrame = none := by
  refine ⟨rfl, ?_, ?_⟩
  · rw [hugeFrame_Len]; decide
  · unfold ValidateMaxHeaders
    rw [hugeFrame_Len]
    decide

/-- C4 (as amended): with `Enabled = true` and a header-name length `n` in the `uint32`
range `0 <= n < 2 ^ 32`, `ValidateHeaderNameLen` returns `ErrHeaderNameTooLarge` exactly
when `n > MaxHeaderNameSize` and success exactly when `n <= MaxHeaderNameSize`; the
boundary `n = MaxHeaderNameSize` succeeds. -/
theorem C4_header_name_len_in_range (c : Constraints) (n : Int) (hE : c.Enabled = true)
    (h0 : 0 ≤ n) (h1 : n < 4294967296) :
    (ValidateHeaderNameLen (some c) n = some ErrHeaderNameTooLarge ↔
      n > (c.MaxHeaderNameSize : Int)) ∧
    (ValidateHeaderNameLen (some c) n = none ↔ n ≤ (c.MaxHeaderNameSize : Int)) ∧
    (n = (c.MaxHeaderNameSize : Int) → ValidateHeaderNameLen (some c) n = none) := by
  have hu := toUint32_of_inRange n h0 h1
  simp only [ValidateHeaderNameLen, hE, hu, Bool.true_and]
  by_cases hlt : n.toNat > c.MaxHeaderNameSize
  · simp [hlt]; omega
  · simp [hlt]; omega

/-- C4, at the default limit 256: the boundary length 256 is accepted. -/
theorem C4_header_name_len_in_range_witness :
    enabledDefaults.Enabled = true ∧ (0 : Int) ≤ 256 ∧ (256 : Int) < 4294967296 ∧
    ValidateHeaderNameLen (some enabledDefaults) 256 = none :=
  ⟨rfl, by decide, by decide,
    (C4_header_name_len_in_range enabledDefaults 256 rfl (by decide) (by decide)).2.2
      (by decide)⟩

/-- C4 as stated for every Go `int` fails: with the default limit 256 the length
`2 ^ 32 + 1` exceeds the limit and is accepted, and the length `-1` does not exceed the
limit and is rejected. -/
theorem C4_header_name_len_counterexample :
    enabledDefaults.Enabled = true ∧
    ((4294967297 : Int) > (enabledDefaults.MaxHeaderNameSize : Int) ∧
      ValidateHeaderNameLen (some enabledDefaults) 4294967297 = none) ∧
    (¬ ((-1 : Int) > (enabledDefaults.MaxHeaderNameSize : Int)) ∧
      ValidateHeaderNameLen (some enabledDefaults) (-1) = some ErrHeaderNameTooLarge) := by
  decide

/-! ## The header value check -/

/-- C5 (the code at the failing input): with `Enabled = true` and the default limit 4096,
`ValidateHeaderValueLen` rejects the value length 10, which is within the limit, with
`ErrHeaderValueTooLarge`, and accepts the value length 5000, which exceeds the limit;
the three sibling checks accept a length of 10 under their default limits. -/
theorem C5_header_value_len_inverted :
    enabledDefaults.Enabled = true ∧
    enabledDefaults.MaxHeaderValueSize = 4096 ∧
    ValidateHeaderValueLen (some enabledDefaults) 10 = some ErrHeaderValueTooLarge ∧
    ValidateHeaderValueLen (some enabledDefaults) 5000 = none ∧
    ValidateHeaderNameLen (some enabledDefaults) 10 = none ∧
    ValidateBodyLen (some enabledDefaults) 10 = none := by
  decide

/-- C6: with `Enabled = true` and a value length `v` with `0 <= v < 2 ^ 32`,
`ValidateHeaderValueLen` returns `ErrHeaderValueTooLarge` exactly when
`v <= MaxHeaderValueSize` and success exactly when `v > MaxHeaderValueSize`. -/
theorem C6_header_value_len_checked_logic (c : Constraints) (v : Int)
    (hE : c.Enabled = true) (h0 : 0 ≤ v) (h1 : v < 4294967296) :
    (ValidateHeaderValueLen (some c) v = some ErrHeaderValueTooLarge ↔
      v ≤ (c.MaxHeaderValueSize : Int)) ∧
    (ValidateHeaderValueLen (some c) v = none ↔ v > (c.MaxHeaderValueSize : Int)) := by
  have hu := toUint32_of_inRange v h0 h1
  simp only [ValidateHeaderValueLen, hE, hu, Bool.true_and]
  by_cases hle : v.toNat ≤ c.MaxHeaderValueSize
  · simp [hle]; omega
  · simp [hle]; omega

/-- C6, at the default limit 4096: the boundary length 4096 is rejected. -/
theorem C6_header_value_len_checked_logic_witness :
    enabledDefaults.Enabled = true ∧ (0 : Int) ≤ 4096 ∧ (4096 : Int) < 4294967296 ∧
    ValidateHeaderValueLen (some enabledDefaults) 4096 = some ErrHeaderValueTooLarge :=
  ⟨rfl, by decide, by decide,
    (C6_header_value_len_checked_logic enabledDefaults 4096 rfl (by decide)
      (by decide)).1.mpr (by decide)⟩

/-! ## The content type check -/

/-- C7: with `Enabled = true` and `EnforceAllowedContentTypes = true`, on a frame whose
Content-Type lookup is present with value `t` (the empty string included),
`ValidateContentType` returns success exactly when `AllowedContentTypes` maps `t` to
`true`, and `ErrInvalidContentType` in every other case (no entry for `t`, or `t` mapped
to `false`), whatever the command and the body of the frame are. -/
theorem C7_content_type_present (c : Constraints) (f : Frame) (t : String)
    (hE : c.Enabled = true) (hA : c.EnforceAllowedContentTypes = true)
    (hP : f.Header.Contains ContentType = some t) :
    (ValidateContentType (some c) f = none ↔ c.AllowedContentTypes t = some true) ∧
    (c.AllowedContentTypes t ≠ some true →
      ValidateContentType (some c) f = some ErrInvalidContentType) ∧
    (c.AllowedContentTypes t = none →
      ValidateContentType (some c) f = some ErrInvalidContentType) ∧
    (c.AllowedContentTypes t = some false →
      ValidateContentType (some c) f = some ErrInvalidContentType) := by
  cases hm : c.AllowedContentTypes t with
  | none => simp [ValidateContentType, hE, hA, hP, mapIndex, hm]
  | some v => cases v <;> simp [ValidateContentType, hE, hA, hP, mapIndex, hm]

/-- C7, at the allow-list with "text/plain" mapped to true and "application/json" mapped to
false: "text/plain" succeeds, "application/json", the empty string and every unlisted type
fail with `ErrInvalidContentType`. -/
theorem C7_content_type_present_witness :
    allowListExample.Enabled = true ∧
    allowListExample.EnforceAllowedContentTypes = true ∧
    (frameWithType SEND "text/plain" [104]).Header.Contains ContentType =
      some "text/plain" ∧
    ValidateContentType (some allowListExample) (frameWithType SEND "text/plain" [104]) =
      none ∧
    ValidateContentType (some allowListExample)
      (frameWithType SEND "application/json" [104]) = some ErrInvalidContentType ∧
    ValidateContentType (some allowListExample) (frameWithType "SUBSCRIBE" "" []) =
      some ErrInvalidContentType ∧
    (∀ (f : Frame) (t : String), f.Header.Contains ContentType = some t →
      t ≠ "text/plain" → t ≠ "application/json" →
      ValidateContentType (some allowListExample) f = some ErrInvalidContentType) :=
  ⟨rfl, rfl, frameWithType_Contains _ _ _,
    (C7_content_type_present allowListExample _ "text/plain" rfl rfl
      (frameWithType_Contains _ _ _)).1.mpr (by decide),
    (C7_content_type_present allowListExample _ "application/json" rfl rfl
      (frameWithType_Contains _ _ _)).2.2.2 (by decide),
    (C7_content_type_present allowListExample _ "" rfl rfl
      (frameWithType_Contains _ _ _)).2.2.1 (by decide),
    fun f t hP h1 h2 =>
      (C7_content_type_present allowListExample f t rfl rfl hP).2.2.1
        (by simp [allowListExample, exampleContentTypes, h1, h2])⟩

/-- C8: with `Enabled = true` and `EnforceAllowedContentTypes = true`, on a frame without a
Content-Type header, `ValidateContentType` returns `ErrMissingContentType` exactly when the
body is non-empty and the command is SEND, MESSAGE or ERROR, and success in every other
case: an empty body with any command, any body with another command. -/
theorem C8_content_type_absent (c : Constraints) (f : Frame)
    (hE : c.Enabled = true) (hA : c.EnforceAllowedContentTypes = true)
    (hP : f.Header.Contains ContentType = none) :
    (ValidateContentType (some c) f = some ErrMissingContentType ↔
      (f.Body ≠ [] ∧ (f.Command = SEND ∨ f.Command = MESSAGE ∨ f.Command = ERROR))) ∧
    (ValidateContentType (some c) f = none ↔
      (f.Body = [] ∨ (f.Command ≠ SEND ∧ f.Command ≠ MESSAGE ∧ f.Command ≠ ERROR))) ∧
    (f.Body = [] → ValidateContentType (some c) f = none) ∧
    (f.Command ≠ SEND → f.Command ≠ MESSAGE → f.Command ≠ ERROR →
      ValidateContentType (some c) f = none) := by
  simp only [ValidateContentType, hE, hA, hP, Bool.and_self, if_true]
  by_cases hb : f.Body = []
  · simp [hb]
  · have hlen : 0 < f.Body.length := List.length_pos.mpr hb
    by_cases h1 : f.Command = SEND
    · simp [hb, hlen, h1]
    · by_cases h2 : f.Command = MESSAGE
      · simp [hb, hlen, h2]
      · by_cases h3 : f.Command = ERROR
        · simp [hb, hlen, h3]
        · simp [hb, hlen, h1, h2, h3]

/-- C8, at a SEND frame with a one byte body and no Content-Type header: the frame is
rejected with `ErrMissingContentType`. -/
theorem C8_content_type_absent_witness :
    allowListExample.Enabled = true ∧
    allowListExample.EnforceAllowedContentTypes = true ∧
    sendNoType.Header.Contains ContentType = none ∧
    ValidateContentType (some allowListExample) sendNoType = some ErrMissingContentType :=
  ⟨rfl, rfl, by decide,
    (C8_content_type_absent allowListExample sendNoType rfl rfl (by decide)).1.mpr
      ⟨by decide, Or.inl rfl⟩⟩

/-- C9: when `EnforceAllowedContentTypes = false`, or when `Enabled = false`,
`ValidateContentType` returns success on every frame, whatever the allow-list and the
frame's Content-Type header, command and body are. -/
theorem C9_content_type_not_enforced (c : Constraints) (f : Frame)
    (h : c.EnforceAllowedContentTypes = false ∨ c.Enabled = false) :
    ValidateContentType (some c) f = none := by
  rcases h with h | h <;> simp [ValidateContentType, h]

/-- C9, at a SEND frame with a body and no Content-Type header: it is accepted by the
enabled defaults, which do not enforce the allow-list, and by a disabled value that
does. -/
theorem C9_content_type_not_enforced_witness :
    enabledDefaults.Enabled = true ∧
    enabledDefaults.EnforceAllowedContentTypes = false ∧
    ValidateContentType (some enabledDefaults) sendNoType = none ∧
    disabledZero.EnforceAllowedContentTypes = true ∧
    disabledZero.Enabled = false ∧
    ValidateContentType (some disabledZero) sendNoType = none :=
  ⟨rfl, rfl, C9_content_type_not_enforced enabledDefaults sendNoType (Or.inl rfl),
    rfl, rfl, C9_content_type_not_enforced disabledZero sendNoType (Or.inr rfl)⟩

/-! ## Construction -/

/-- C10: `NewConstraints` returns a value with `Enabled = false`, the limits 64, 256, 4096
and 1048576, `EnforceAllowedContentTypes = false`, and an allow-list in which every lookup
reports the key absent. -/
theorem C10_new_constraints_defaults :
    NewConstraints.Enabled = false ∧
    NewConstraints.MaxHeaders = 64 ∧
    NewConstraints.MaxHeaderNameSize = 256 ∧
    NewConstraints.MaxHeaderValueSize = 4096 ∧
    NewConstraints.MaxBodySize = 1048576 ∧
    NewConstraints.EnforceAllowedContentTypes = false ∧
    (∀ k : String, NewConstraints.AllowedContentTypes k = none) ∧
    (∀ k : String, mapIndex NewConstraints.AllowedContentTypes k = (false, false)) :=
  ⟨rfl, rfl, rfl, rfl, rfl, rfl, fun _ => rfl, fun _ => rfl⟩

/-! ## Absent constraints and the sentinel limit -/

theorem toUint32_lt (n : Int) : toUint32 n < 4294967296 := by
  unfold toUint32
  have hlt := Int.emod_lt_of_pos n (by decide : (0 : Int) < 4294967296)
  have hge := Int.emod_nonneg n (by decide : (4294967296 : Int) ≠ 0)
  omega

theorem toUint32_add_size (n : Int) : toUint32 (n + 4294967296) = toUint32 n := by
  unfold toUint32
  rw [Int.add_emod_self]

/-- C11: a nil `Constraints` receiver behaves like a value with `Enabled = false`: each of
the five validators returns success on a nil receiver for every input, which is the result
the same validator returns on any disabled value for that input. -/
theorem C11_nil_receiver_as_disabled (c : Constraints) (h : c.Enabled = false) :
    (∀ f : Frame, ValidateMaxHeaders none f = none ∧
      ValidateMaxHeaders none f = ValidateMaxHeaders (some c) f) ∧
    (∀ n : Int, ValidateHeaderNameLen none n = none ∧
      ValidateHeaderNameLen none n = ValidateHeaderNameLen (some c) n) ∧
    (∀ v : Int, ValidateHeaderValueLen none v = none ∧
      ValidateHeaderValueLen none v = ValidateHeaderValueLen (some c) v) ∧
    (∀ b : Int, ValidateBodyLen none b = none ∧
      ValidateBodyLen none b = ValidateBodyLen (some c) b) ∧
    (∀ f : Frame, ValidateContentType none f = none ∧
      ValidateContentType none f = ValidateContentType (some c) f) := by
  refine ⟨?_, ?_, ?_, ?_, ?_⟩ <;> intro x <;>
    simp [ValidateMaxHeaders, ValidateContentType, ValidateHeaderNameLen,
      ValidateHeaderValueLen, ValidateBodyLen, h]

/-- C11, at the all-zero disabled value: on a SEND frame with two headers and a body, and
on the lengths 300, 10 and 5000000, the nil receiver returns success, as the disabled value
does. -/
theorem C11_nil_receiver_as_disabled_witness :
    disabledZero.Enabled = false ∧
    (ValidateMaxHeaders none sendNoType = none ∧
      ValidateMaxHeaders none sendNoType = ValidateMaxHeaders (some disabledZero) sendNoType) ∧
    (ValidateHeaderNameLen none 300 = none ∧
      ValidateHeaderNameLen none 300 = ValidateHeaderNameLen (some disabledZero) 300) ∧
    (ValidateHeaderValueLen none 10 = none ∧
      ValidateHeaderValueLen none 10 = ValidateHeaderValueLen (some disabledZero) 10) ∧
    (ValidateBodyLen none 5000000 = none ∧
      ValidateBodyLen none 5000000 = ValidateBodyLen (some disabledZero) 5000000) ∧
    (ValidateContentType none sendNoType = none ∧
      ValidateContentType none sendNoType =
        ValidateContentType (some disabledZero) sendNoType) :=
  have h := C11_nil_receiver_as_disabled disabledZero rfl
  ⟨rfl, h.1 sendNoType, h.2.1 300, h.2.2.1 10, h.2.2.2.1 5000000, h.2.2.2.2 sendNoType⟩

/-- C12: with `Enabled = true`, a limit set to `ConstraintsMax` turns its check off:
`ValidateMaxHeaders` succeeds on every frame when `MaxHeaders = ConstraintsMax`,
`ValidateHeaderNameLen` on every length when `MaxHeaderNameSize = ConstraintsMax`, and
`ValidateBodyLen` on every length when `MaxBodySize = ConstraintsMax`. -/
theorem C12_constraints_max_disables (c : Constraints) (hE : c.Enabled = true) :
    (c.MaxHeaders = ConstraintsMax → ∀ f : Frame, ValidateMaxHeaders (some c) f = none) ∧
    (c.MaxHeaderNameSize = ConstraintsMax →
      ∀ n : Int, ValidateHeaderNameLen (some c) n = none) ∧
    (c.MaxBodySize = ConstraintsMax → ∀ b : Int, ValidateBodyLen (some c) b = none) := by
  refine ⟨?_, ?_, ?_⟩
  · intro hM f
    have hlt := toUint32_lt f.Header.Len
    simp only [ValidateMaxHeaders, hE, hM, ConstraintsMax, if_true]
    rw [if_neg (by omega)]
  · intro hM n
    have hlt := toUint32_lt n
    simp only [ValidateHeaderNameLen, hE, hM, ConstraintsMax, Bool.true_and]
    simp
    omega
  · intro hM b
    have hlt := toUint32_lt b
    simp only [ValidateBodyLen, hE, hM, ConstraintsMax, Bool.true_and]
    simp
    omega

/-- C12, at enabled constraints with the three limits set to `ConstraintsMax`: a frame
with `2 ^ 32` headers, the name length 4294967295 and the body length 5000000000 are
accepted, while the header value check, whose limit is left at 4096, still rejects. -/
theorem C12_constraints_max_disables_witness :
    limitsOff.Enabled = true ∧
    limitsOff.MaxHeaders = ConstraintsMax ∧
    limitsOff.MaxHeaderNameSize = ConstraintsMax ∧
    limitsOff.MaxBodySize = ConstraintsMax ∧
    ValidateMaxHeaders (some limitsOff) hugeFrame = none ∧
    ValidateMaxHeaders (some limitsOff) sendNoType = none ∧
    ValidateHeaderNameLen (some limitsOff) 4294967295 = none ∧
    ValidateBodyLen (some limitsOff) 5000000000 = none ∧
    ValidateHeaderValueLen (some limitsOff) 10 = some ErrHeaderValueTooLarge :=
  have h := C12_constraints_max_disables limitsOff rfl
  ⟨rfl, rfl, rfl, rfl, h.1 rfl hugeFrame, h.1 rfl sendNoType, h.2.1 rfl 4294967295,
    h.2.2 rfl 5000000000, by decide⟩

/-- C13 (the code at the failing input): with `Enabled = true` and
`MaxHeaderValueSize = ConstraintsMax`, `ValidateHeaderValueLen` returns
`ErrHeaderValueTooLarge` for the value lengths 10, 0 and 4294967295, and indeed for every
value length: the check is not turned off, it rejects everything. -/
theorem C13_value_limit_max_rejects_all :
    valueCheckOff.Enabled = true ∧
    valueCheckOff.MaxHeaderValueSize = ConstraintsMax ∧
    ValidateHeaderValueLen (some valueCheckOff) 10 = some ErrHeaderValueTooLarge ∧
    ValidateHeaderValueLen (some valueCheckOff) 0 = some ErrHeaderValueTooLarge ∧
    ValidateHeaderValueLen (some valueCheckOff) 4294967295 = some ErrHeaderValueTooLarge ∧
    (∀ v : Int, ValidateHeaderValueLen (some valueCheckOff) v =
      some ErrHeaderValueTooLarge) := by
  refine ⟨rfl, rfl, by decide, by decide, by decide, ?_⟩
  intro v
  have hlt := toUint32_lt v
  have hE : valueCheckOff.Enabled = true := rfl
  have hM : valueCheckOff.MaxHeaderValueSize = 4294967295 := rfl
  simp only [ValidateHeaderValueLen, hE, hM, Bool.true_and]
  simp
  omega

/-! ## Error results and dependencies -/

/-- C14: every validator returns success or only its own error, for every receiver (nil
included) and every input: `ErrTooManyHeaders` for `ValidateMaxHeaders`,
`ErrHeaderNameTooLarge` for `ValidateHeaderNameLen`, `ErrHeaderValueTooLarge` for
`ValidateHeaderValueLen`, `ErrBodyTooLarge` for `ValidateBodyLen`, and for
`ValidateContentType` either `ErrInvalidContentType`, only when a Content-Type header is
present, or `ErrMissingContentType`, only when it is absent. -/
theorem C14_own_errors_only (c : Option Constraints) (f : Frame) (n : Int) :
    (ValidateMaxHeaders c f = none ∨ ValidateMaxHeaders c f = some ErrTooManyHeaders) ∧
    (ValidateHeaderNameLen c n = none ∨
      ValidateHeaderNameLen c n = some ErrHeaderNameTooLarge) ∧
    (ValidateHeaderValueLen c n = none ∨
      ValidateHeaderValueLen c n = some ErrHeaderValueTooLarge) ∧
    (ValidateBodyLen c n = none ∨ ValidateBodyLen c n = some ErrBodyTooLarge) ∧
    (ValidateContentType c f = none ∨
      ValidateContentType c f = some ErrInvalidContentType ∨
      ValidateContentType c f = some ErrMissingContentType) ∧
    (ValidateContentType c f = some ErrInvalidContentType →
      ∃ t : String, f.Header.Contains ContentType = some t) ∧
    (ValidateContentType c f = some ErrMissingContentType →
      f.Header.Contains ContentType = none) := by
  cases c with
  | none =>
    simp [ValidateMaxHeaders, ValidateHeaderNameLen, ValidateHeaderValueLen,
      ValidateBodyLen, ValidateContentType]
  | some c =>
    refine ⟨?_, ?_, ?_, ?_, ?_⟩
    · unfold ValidateMaxHeaders
      dsimp only
      split
      · split
        · exact Or.inr rfl
        · exact Or.inl rfl
      · exact Or.inl rfl
    · unfold ValidateHeaderNameLen
      dsimp only
      split
      · exact Or.inr rfl
      · exact Or.inl rfl
    · unfold ValidateHeaderValueLen
      dsimp only
      split
      · exact Or.inr rfl
      · exact Or.inl rfl
    · unfold ValidateBodyLen
      dsimp only
      split
      · exact Or.inr rfl
      · exact Or.inl rfl
    · unfold ValidateContentType
      dsimp only
      split
      · cases hP : f.Header.Contains ContentType with
        | none =>
          dsimp only
          split <;> simp
        | some t =>
          dsimp only
          split <;> simp
      · simp

/-- C14, at concrete inputs: each of the six errors is returned by its validator, and
success is returned as well. -/
theorem C14_own_errors_only_witness :
    ValidateMaxHeaders (some allowListTight) sendNoType = some ErrTooManyHeaders ∧
    ValidateHeaderNameLen (some allowListTight) 1 = some ErrHeaderNameTooLarge ∧
    ValidateHeaderValueLen (some allowListTight) 0 = some ErrHeaderValueTooLarge ∧
    ValidateBodyLen (some allowListTight) 1 = some ErrBodyTooLarge ∧
    ValidateContentType (some allowListTight) sendNoType = some ErrMissingContentType ∧
    sendNoType.Header.Contains ContentType = none ∧
    ValidateContentType (some allowListTight) (frameWithType SEND "image/png" []) =
      some ErrInvalidContentType ∧
    (∃ t : String,
      (frameWithType SEND "image/png" []).Header.Contains ContentType = some t) ∧
    ValidateContentType (some allowListTight) messageTyped = none :=
  ⟨by decide, by decide, by decide, by decide, by decide,
    (C14_own_errors_only (some allowListTight) sendNoType 1).2.2.2.2.2.2 (by decide),
    by decide,
    (C14_own_errors_only (some allowListTight) (frameWithType SEND "image/png" [])
      1).2.2.2.2.2.1 (by decide),
    by decide⟩

/-- C15: `ValidateMaxHeaders` reads only the header count: on two frames whose header
containers report the same count it returns the same result, for every receiver, whatever
the header names and values, the commands and the bodies of the two frames are. -/
theorem C15_max_headers_reads_count_only (c : Option Constraints) (f g : Frame)
    (h : f.Header.Len = g.Header.Len) :
    ValidateMaxHeaders c f = ValidateMaxHeaders c g := by
  unfold ValidateMaxHeaders
  rw [h]

/-- C15, at a SEND frame with a body and a MESSAGE frame without one, which have two
headers each under different names: a limit of 1 rejects both, a limit of 2 accepts
both. -/
theorem C15_max_headers_reads_count_only_witness :
    sendNoType.Header.Len = messageTyped.Header.Len ∧
    sendNoType.Command ≠ messageTyped.Command ∧
    sendNoType.Body ≠ messageTyped.Body ∧
    sendNoType.Header.entries ≠ messageTyped.Header.entries ∧
    ValidateMaxHeaders (some { enabledDefaults with MaxHeaders := 1 }) sendNoType =
      ValidateMaxHeaders (some { enabledDefaults with MaxHeaders := 1 }) messageTyped ∧
    ValidateMaxHeaders (some { enabledDefaults with MaxHeaders := 1 }) messageTyped =
      some ErrTooManyHeaders ∧
    ValidateMaxHeaders (some { enabledDefaults with MaxHeaders := 2 }) sendNoType =
      ValidateMaxHeaders (some { enabledDefaults with MaxHeaders := 2 }) messageTyped :=
  ⟨by decide, by decide, by decide, by decide,
    C15_max_headers_reads_count_only _ sendNoType messageTyped (by decide), by decide,
    C15_max_headers_reads_count_only _ sendNoType messageTyped (by decide)⟩

/-- C16: each check depends only on `Enabled` and on its own configuration fields: two
`Constraints` values that agree on `Enabled` give the same `ValidateMaxHeaders` result on
every frame when they agree on `MaxHeaders`, the same `ValidateHeaderNameLen` result when
they agree on `MaxHeaderNameSize`, the same `ValidateHeaderValueLen` result when they agree
on `MaxHeaderValueSize`, the same `ValidateBodyLen` result when they agree on `MaxBodySize`,
and the same `ValidateContentType` result when they agree on `EnforceAllowedContentTypes`
and on every lookup of `AllowedContentTypes`. -/
theorem C16_checks_independent (c d : Constraints) (hE : c.Enabled = d.Enabled) :
    (c.MaxHeaders = d.MaxHeaders →
      ∀ f : Frame, ValidateMaxHeaders (some c) f = ValidateMaxHeaders (some d) f) ∧
    (c.MaxHeaderNameSize = d.MaxHeaderNameSize →
      ∀ n : Int, ValidateHeaderNameLen (some c) n = ValidateHeaderNameLen (some d) n) ∧
    (c.MaxHeaderValueSize = d.MaxHeaderValueSize →
      ∀ v : Int, ValidateHeaderValueLen (some c) v = ValidateHeaderValueLen (some d) v) ∧
    (c.MaxBodySize = d.MaxBodySize →
      ∀ b : Int, ValidateBodyLen (some c) b = ValidateBodyLen (some d) b) ∧
    (c.EnforceAllowedContentTypes = d.EnforceAllowedContentTypes →
      (∀ k : String, c.AllowedContentTypes k = d.AllowedContentTypes k) →
      ∀ f : Frame, ValidateContentType (some c) f = ValidateContentType (some d) f) := by
  refine ⟨?_, ?_, ?_, ?_, ?_⟩
  · intro hM f
    simp only [ValidateMaxHeaders, hE, hM]
  · intro hM n
    simp only [ValidateHeaderNameLen, hE, hM]
  · intro hM v
    simp only [ValidateHeaderValueLen, hE, hM]
  · intro hM b
    simp only [ValidateBodyLen, hE, hM]
  · intro hA hM f
    have hMap : c.AllowedContentTypes = d.AllowedContentTypes := funext hM
    simp only [ValidateContentType, hE, hA, hMap]

/-- C16, at two pairs of enabled values. The first pair has the default limits and differs
in the allow-list settings: the four numeric checks agree. The second pair has the same
allow-list settings and differs in all four limits: the content type check agrees. -/
theorem C16_checks_independent_witness :
    enabledDefaults.Enabled = allowListExample.Enabled ∧
    enabledDefaults.EnforceAllowedContentTypes ≠
      allowListExample.EnforceAllowedContentTypes ∧
    ValidateMaxHeaders (some enabledDefaults) sendNoType =
      ValidateMaxHeaders (some allowListExample) sendNoType ∧
    ValidateHeaderNameLen (some enabledDefaults) 300 =
      ValidateHeaderNameLen (some allowListExample) 300 ∧
    ValidateHeaderValueLen (some enabledDefaults) 300 =
      ValidateHeaderValueLen (some allowListExample) 300 ∧
    ValidateBodyLen (some enabledDefaults) 300 =
      ValidateBodyLen (some allowListExample) 300 ∧
    allowListExample.Enabled = allowListTight.Enabled ∧
    allowListExample.MaxBodySize ≠ allowListTight.MaxBodySize ∧
    ValidateContentType (some allowListExample) sendNoType =
      ValidateContentType (some allowListTight) sendNoType :=
  have h := C16_checks_independent enabledDefaults allowListExample rfl
  ⟨rfl, by decide, h.1 rfl sendNoType, h.2.1 rfl 300, h.2.2.1 rfl 300, h.2.2.2.1 rfl 300,
    rfl, by decide,
    (C16_checks_independent allowListExample allowListTight rfl).2.2.2.2 rfl
      (fun _ => rfl) sendNoType⟩

/-! ## Lengths modulo `2 ^ 32` and monotonicity -/

/-- C17: the three length validators convert their `int` argument to `uint32` before
comparing, so the result depends on the length only modulo `2 ^ 32`: for every receiver and
every `n`, each of `ValidateHeaderNameLen`, `ValidateHeaderValueLen` and `ValidateBodyLen`
returns the same result on `n` and on `n + 2 ^ 32`; with `Enabled = true` and
`MaxBodySize = 1048576`, `ValidateBodyLen` accepts the length `2 ^ 32`. -/
theorem C17_lengths_modulo_uint32 (c : Option Constraints) (n : Int) :
    ValidateHeaderNameLen c n = ValidateHeaderNameLen c (n + 4294967296) ∧
    ValidateHeaderValueLen c n = ValidateHeaderValueLen c (n + 4294967296) ∧
    ValidateBodyLen c n = ValidateBodyLen c (n + 4294967296) ∧
    (enabledDefaults.Enabled = true ∧ enabledDefaults.MaxBodySize = 1048576 ∧
      ValidateBodyLen (some enabledDefaults) 4294967296 = none) := by
  refine ⟨?_, ?_, ?_, rfl, rfl, by decide⟩
  · unfold ValidateHeaderNameLen
    rw [toUint32_add_size]
  · unfold ValidateHeaderValueLen
    rw [toUint32_add_size]
  · unfold ValidateBodyLen
    rw [toUint32_add_size]

/-- C18: acceptance by `ValidateHeaderNameLen` and by `ValidateBodyLen` is monotone: for two
`Constraints` values with the same `Enabled`, the second with a limit at least that of the
first, and two lengths `0 <= n <= m < 2 ^ 32`, if the first value accepts `m` then the
second accepts `n`. -/
theorem C18_acceptance_monotone (c d : Constraints) (n m : Int)
    (hE : c.Enabled = d.Enabled) (h0 : 0 ≤ n) (hnm : n ≤ m) (h1 : m < 4294967296) :
    (c.MaxHeaderNameSize ≤ d.MaxHeaderNameSize →
      ValidateHeaderNameLen (some c) m = none → ValidateHeaderNameLen (some d) n = none) ∧
    (c.MaxBodySize ≤ d.MaxBodySize →
      ValidateBodyLen (some c) m = none → ValidateBodyLen (some d) n = none) := by
  have hn1 : n < 4294967296 := lt_of_le_of_lt hnm h1
  have hm0 : 0 ≤ m := le_trans h0 hnm
  have hun := toUint32_of_inRange n h0 hn1
  have hum := toUint32_of_inRange m hm0 h1
  refine ⟨?_, ?_⟩
  · intro hL hacc
    cases hd : d.Enabled with
    | false => simp [ValidateHeaderNameLen, hd]
    | true =>
      rw [hd] at hE
      simp only [ValidateHeaderNameLen, hE, hum, Bool.true_and] at hacc
      simp only [ValidateHeaderNameLen, hd, hun, Bool.true_and]
      simp at hacc ⊢
      omega
  · intro hL hacc
    cases hd : d.Enabled with
    | false => simp [ValidateBodyLen, hd]
    | true =>
      rw [hd] at hE
      simp only [ValidateBodyLen, hE, hum, Bool.true_and] at hacc
      simp only [ValidateBodyLen, hd, hun, Bool.true_and]
      simp at hacc ⊢
      omega

/-- C18, from the default limits to limits of `ConstraintsMax`: the defaults accept the name
length 256 and the body length 1048576, hence the larger limits accept the lengths 200
and 1000. -/
theorem C18_acceptance_monotone_witness :
    enabledDefaults.Enabled = limitsOff.Enabled ∧
    enabledDefaults.MaxHeaderNameSize ≤ limitsOff.MaxHeaderNameSize ∧
    enabledDefaults.MaxBodySize ≤ limitsOff.MaxBodySize ∧
    ValidateHeaderNameLen (some enabledDefaults) 256 = none ∧
    ValidateHeaderNameLen (some limitsOff) 200 = none ∧
    ValidateBodyLen (some enabledDefaults) 1048576 = none ∧
    ValidateBodyLen (some limitsOff) 1000 = none :=
  ⟨rfl, by decide, by decide, by decide,
    (C18_acceptance_monotone enabledDefaults limitsOff 200 256 rfl (by decide) (by decide)
      (by decide)).1 (by decide) (by decide),
    by decide,
    (C18_acceptance_monotone enabledDefaults limitsOff 1000 1048576 rfl (by decide)
      (by decide) (by decide)).2 (by decide) (by decide)⟩

/-! ## Enforcement with an empty allow-list -/

/-- C19: with `Enabled` and `EnforceAllowedContentTypes` true and the allow-list as
`NewConstraints` creates it, `ValidateContentType` rejects every frame that carries a
Content-Type header with `ErrInvalidContentType`, rejects a frame without one with
`ErrMissingContentType` when its body is non-empty and its command is SEND, MESSAGE or
ERROR, hence rejects every frame with a non-empty body and one of these commands, and
accepts exactly the frames without a Content-Type header whose body is empty or whose
command is none of the three. -/
theorem C19_empty_allow_list (c : Constraints) (f : Frame)
    (hE : c.Enabled = true) (hA : c.EnforceAllowedContentTypes = true)
    (hM : ∀ k : String, c.AllowedContentTypes k = NewConstraints.AllowedContentTypes k) :
    (∀ t : String, f.Header.Contains ContentType = some t →
      ValidateContentType (some c) f = some ErrInvalidContentType) ∧
    (f.Header.Contains ContentType = none → f.Body ≠ [] →
      (f.Command = SEND ∨ f.Command = MESSAGE ∨ f.Command = ERROR) →
      ValidateContentType (some c) f = some ErrMissingContentType) ∧
    (f.Body ≠ [] → (f.Command = SEND ∨ f.Command = MESSAGE ∨ f.Command = ERROR) →
      ValidateContentType (some c) f ≠ none) ∧
    (ValidateContentType (some c) f = none ↔
      (f.Header.Contains ContentType = none ∧
        (f.Body = [] ∨
          (f.Command ≠ SEND ∧ f.Command ≠ MESSAGE ∧ f.Command ≠ ERROR)))) := by
  have hMap : ∀ k : String, c.AllowedContentTypes k = none :=
    fun k => (hM k).trans rfl
  cases hP : f.Header.Contains ContentType with
  | some t =>
    simp [ValidateContentType, hE, hA, hP, mapIndex, hMap]
  | none =>
    by_cases hb : f.Body = []
    · simp [ValidateContentType, hE, hA, hP, hb]
    · have hlen : 0 < f.Body.length := List.length_pos.mpr hb
      by_cases h1 : f.Command = SEND
      · simp [ValidateContentType, hE, hA, hP, hb, hlen, h1]
      · by_cases h2 : f.Command = MESSAGE
        · simp [ValidateContentType, hE, hA, hP, hb, hlen, h2]
        · by_cases h3 : f.Command = ERROR
          · simp [ValidateContentType, hE, hA, hP, hb, hlen, h3]
          · simp [ValidateContentType, hE, hA, hP, hb, hlen, h1, h2, h3]

/-- C19, at the value of `NewConstraints` with the two switches turned on: a MESSAGE frame
with Content-Type "text/plain" and an empty body is rejected with `ErrInvalidContentType`, a
SEND frame with a body and no Content-Type header with `ErrMissingContentType`, and the
same frames without a body, or under the command SUBSCRIBE, and without a Content-Type
header are accepted. -/
theorem C19_empty_allow_list_witness :
    enforcedDefaults.Enabled = true ∧
    enforcedDefaults.EnforceAllowedContentTypes = true ∧
    (∀ k : String,
      enforcedDefaults.AllowedContentTypes k = NewConstraints.AllowedContentTypes k) ∧
    ValidateContentType (some enforcedDefaults) messageTyped = some ErrInvalidContentType ∧
    ValidateContentType (some enforcedDefaults) sendNoType = some ErrMissingContentType ∧
    ValidateContentType (some enforcedDefaults) { sendNoType with Body := [] } = none ∧
    ValidateContentType (some enforcedDefaults) { sendNoType with Command := "SUBSCRIBE" } =
      none :=
  ⟨rfl, rfl, fun _ => rfl,
    (C19_empty_allow_list enforcedDefaults messageTyped rfl rfl (fun _ => rfl)).1
      "text/plain" (by decide),
    (C19_empty_allow_list enforcedDefaults sendNoType rfl rfl (fun _ => rfl)).2.1
      (by decide) (by decide) (Or.inl rfl),
    (C19_empty_allow_list enforcedDefaults { sendNoType with Body := [] } rfl rfl
      (fun _ => rfl)).2.2.2.mpr ⟨by decide, Or.inl rfl⟩,
    (C19_empty_allow_list enforcedDefaults { sendNoType with Command := "SUBSCRIBE" } rfl rfl
      (fun _ => rfl)).2.2.2.mpr ⟨by decide, Or.inr (by decide)⟩⟩

end frame
